import Mathlib

set_option maxRecDepth 8192

/-!
Verification of the TVPol XML scraper (`main.py`) against its specification.

The development shallowly embeds the program:

* Python exceptions become the inductive `PyExc`; the class tests used by the
  three `tenacity` retry decorators become boolean predicates on `PyExc`.
* The `tenacity` retry wrapper `@retry(stop=stop_after_attempt(5),
  wait=wait_fixed(120), retry=retry_if_exception_type(E))` becomes the
  function `tenacityRetry`, which records the outcome, the number of attempts
  made, and the sleeps performed.  `tenacity` is used with its default
  `reraise=False`, so exhausting the attempts raises `tenacity.RetryError`
  (modelled by `RetryOutcome.retryError`), not the last underlying exception.
* An XML feed after `ET.fromstring` is a list of `PRecord`s (the elements
  matched by `findall('.//prrecord')`, in document order); `find('.//TAG')`
  becomes a field of type `Option (Option String)`: the outer `Option` is
  element presence (`find` returning `None`), the inner one is the element's
  `.text` (Python `None` or a `str`).
* The spreadsheet range A2:H becomes `Region`, a list of 8-cell rows starting
  at sheet row 2, rows beyond the list being empty; `update_google_sheet`
  becomes a trace of sheet operations (`update_google_sheet_ops`) and its
  state semantics (`update_google_sheet_state`); the module-level
  `sheet.get("A2:H")` becomes `sheetGet`, which, like the Sheets values API,
  trims trailing empty cells of each row and trailing empty rows.
* `save_data_to_txt` becomes `snapshotChars` / `writeFileUnits` (text built
  as `'\t'.join(row) + '\n'` per row, encoded to UTF-16 code units with a
  BOM), and the module-level orchestration becomes `runPipeline` over an
  environment giving each URL's fetch outcome.
-/

namespace TVPol

/-! ### Python exceptions and the class predicates of the retry decorators -/

/-- The Python exception classes relevant to the script.  Per
`requests/exceptions.py`, `MissingSchema(RequestException, ValueError)` and
`InvalidURL(RequestException, ValueError)` — the exceptions raised for bad URL
syntax — are subclasses of `RequestException`. -/
inductive PyExc where
  | connectionError   -- requests.exceptions.ConnectionError
  | timeoutError      -- requests.exceptions.Timeout
  | missingSchema     -- requests.exceptions.MissingSchema (bad URL syntax)
  | invalidURL        -- requests.exceptions.InvalidURL (bad URL syntax)
  | httpError         -- requests.exceptions.HTTPError
  | apiError          -- gspread.exceptions.APIError
  | smtpException     -- smtplib.SMTPException
  | valueError        -- ValueError not under RequestException
  | typeError         -- TypeError
  | attributeError    -- AttributeError
  | otherError        -- any other exception class
deriving DecidableEq

/-- `isinstance(e, requests.exceptions.RequestException)`. -/
def isRequestException : PyExc → Bool
  | .connectionError => true
  | .timeoutError => true
  | .missingSchema => true
  | .invalidURL => true
  | .httpError => true
  | _ => false

/-- `isinstance(e, gspread.exceptions.APIError)`. -/
def isAPIError : PyExc → Bool
  | .apiError => true
  | _ => false

/-- `isinstance(e, smtplib.SMTPException)`. -/
def isSMTPException : PyExc → Bool
  | .smtpException => true
  | _ => false

/-! ### The tenacity retry wrapper -/

/-- Net result of a call to a `tenacity`-decorated function. -/
inductive RetryOutcome (ε α : Type) where
  /-- some attempt returned normally -/
  | ok (a : α)
  /-- an attempt raised an exception not matching `retry_if_exception_type`;
  it propagates as-is -/
  | raised (e : ε)
  /-- all allowed attempts raised matching exceptions; with the default
  `reraise=False`, `tenacity` raises `RetryError` wrapping the last attempt's
  exception -/
  | retryError (e : ε)
deriving DecidableEq

/-- A call's observable behaviour: outcome, attempts made, sleeps performed. -/
structure RetryTrace (ε α : Type) where
  outcome : RetryOutcome ε α
  attempts : Nat
  sleeps : List Nat
deriving DecidableEq

/-- One step of the `tenacity` loop.  `beh n` is what the `n`-th execution of
the wrapped body does (1-indexed); `fuel` is the number of attempts still
allowed including the current one (`stop_after_attempt(5)` starts it at 5);
`wait_fixed(120)` sleeps 120 seconds before each re-attempt. -/
def tenacityGo (re : ε → Bool) (beh : Nat → Except ε α) : Nat → Nat → RetryTrace ε α
  | 0, n =>
    match beh n with
    | .ok a => ⟨.ok a, n, []⟩
    | .error e => if re e then ⟨.retryError e, n, []⟩ else ⟨.raised e, n, []⟩
  | 1, n =>
    match beh n with
    | .ok a => ⟨.ok a, n, []⟩
    | .error e => if re e then ⟨.retryError e, n, []⟩ else ⟨.raised e, n, []⟩
  | f + 2, n =>
    match beh n with
    | .ok a => ⟨.ok a, n, []⟩
    | .error e =>
      if re e then
        let t := tenacityGo re beh (f + 1) (n + 1)
        ⟨t.outcome, t.attempts, 120 :: t.sleeps⟩
      else ⟨.raised e, n, []⟩

/-- `@retry(stop=stop_after_attempt(5), wait=wait_fixed(120),
retry=retry_if_exception_type(E))` applied to a body behaving as `beh`. -/
def tenacityRetry (re : ε → Bool) (beh : Nat → Except ε α) : RetryTrace ε α :=
  tenacityGo re beh 5 1

/-- `fetch_url` (main.py lines 44–49): retries `requests.exceptions.RequestException`. -/
def fetch_url_call (beh : Nat → Except PyExc α) : RetryTrace PyExc α :=
  tenacityRetry isRequestException beh

/-- `update_google_sheet`'s retry wrapper (lines 52–53): retries `gspread.exceptions.APIError`. -/
def update_google_sheet_call (beh : Nat → Except PyExc α) : RetryTrace PyExc α :=
  tenacityRetry isAPIError beh

/-- `send_email_with_attachment`'s retry wrapper (lines 69–70): retries `smtplib.SMTPException`. -/
def send_email_with_attachment_call (beh : Nat → Except PyExc α) : RetryTrace PyExc α :=
  tenacityRetry isSMTPException beh

/-! ### The record parser (`parse_xml_content`, main.py lines 104–162) -/

/-- One element matched by `root.findall('.//prrecord')`.  Each field models
`record.find('.//TAG')` followed by `.text`: the outer `Option` is element
presence, the inner `Option String` is the element's text (`None` for an
element with no text content). -/
structure PRecord where
  titel : Option (Option String)       -- TITEL
  pr_airdate : Option (Option String)  -- PR_AIRDATE
  start : Option (Option String)       -- START
  epg : Option (Option String)         -- EPG
  pr_code : Option (Option String)     -- PR_CODE
  jahr : Option (Option String)        -- JAHR
  plrating : Option (Option String)    -- PLRATING
  tematyka : Option (Option String)    -- TEMATYKA
deriving DecidableEq

/-- A parsed row, as appended to `parsed_results`: 8 entries, each either a
Python string (`some s`) or Python `None` (`none`). -/
abbrev PRow := List (Option String)

/-- `elem.text if elem is not None else ""` (lines 141–147): a missing element
yields the Python string `""`; a present element yields its `.text`, which is
Python `None` when the element has no text content. -/
def fieldText (e : Option (Option String)) : Option String :=
  match e with
  | none => some ""
  | some t => t

/-- The warning lines logged for one (non-filler) record, lines 126–139. -/
def recordWarnings (r : PRecord) : List String :=
  (if r.pr_airdate = none then ["Missing tag: PR_AIRDATE. TX DATE WILL BE EMPTY, CHECK OUTPUT!"] else []) ++
  (if r.start = none then ["Missing tag: START. TX TIME WILL BE EMPTY, CHECK OUTPUT!"] else []) ++
  (if r.epg = none then ["Missing tag: EPG. EPG description will be empty."] else []) ++
  (if r.pr_code = none then ["Missing tag: PR_CODE. Episode ID will be empty."] else []) ++
  (if r.jahr = none then ["Missing tag: JAHR. Production year field will be empty."] else []) ++
  (if r.plrating = none then ["Missing tag: PLRATING. Ratings field will be empty."] else []) ++
  (if r.tematyka = none then ["Missing tag: TEMATYKA. Genre field will be empty."] else [])

/-- `data_row` (lines 149–158) for a record whose `TITEL` element yielded the
text `title`. -/
def recordRow (title : Option String) (r : PRecord) : PRow :=
  [fieldText r.pr_airdate, fieldText r.start, title, fieldText r.epg,
   fieldText r.pr_code, fieldText r.jahr, fieldText r.plrating, fieldText r.tematyka]

/-- The row built for a record, using the text of its `TITEL` element. -/
def rowOfRecord (r : PRecord) : PRow :=
  recordRow r.titel.join r

/-- The filler test of line 115: the `TITEL` element is present and its text
is exactly the sentinel `"Zakończenie dnia"` (Python `None` never equals it). -/
def isFiller (r : PRecord) : Bool :=
  r.titel = some (some "Zakończenie dnia")

/-- The `for record in records` loop of lines 112–160, returning the
accumulated rows and the warning log lines, or an error when
`record.find('.//TITEL')` is `None` and `.text` raises `AttributeError`. -/
def parseLoop : List PRecord → Except PyExc (List PRow × List String)
  | [] => .ok ([], [])
  | r :: rs =>
    match r.titel with
    | none => .error .attributeError
    | some title =>
      if title = some "Zakończenie dnia" then parseLoop rs
      else
        match parseLoop rs with
        | .error e => .error e
        | .ok (rows, logs) => .ok (recordRow title r :: rows, recordWarnings r ++ logs)

/-- The info line of line 109. -/
def countMsg (n : Nat) : String :=
  "Count of records: " ++ toString n

/-- `parse_xml_content` (lines 104–162) on an already-parsed feed: returns the
rows of `parsed_results` together with the log lines written (the record-count
info line, then the per-record warnings in order), or the exception raised. -/
def parse_xml_content (records : List PRecord) : Except PyExc (List PRow × List String) :=
  match parseLoop records with
  | .error e => .error e
  | .ok (rows, logs) => .ok (rows, countMsg records.length :: logs)

/-- Concrete record used in examples: `TITEL` is the filler sentinel. -/
def recFiller : PRecord :=
  ⟨some (some "Zakończenie dnia"), none, none, none, none, none, none, none⟩

/-- Concrete record used in examples: all elements present, `EPG` present but
with no text content. -/
def recShow : PRecord :=
  ⟨some (some "Show"), some (some "20240101"), some (some "1000"), some none,
   some (some "EP1"), some (some "2020"), some (some "PG"), some (some "Drama")⟩

/-! ### The sheet synchronizer (`update_google_sheet`, main.py lines 52–66) -/

/-- One row of the sheet's columns A–H (8 cells). -/
abbrev SRow := List String

/-- The contents of columns A–H from sheet row 2 downward; rows beyond the
list are empty. -/
abbrev Region := List SRow

/-- An empty A–H row. -/
def emptyRow : SRow := List.replicate 8 ""

/-- How a parsed field lands in a cell: a Python string stays itself; a `None`
value in a just-cleared range leaves the cell empty. -/
def cellOfField (f : Option String) : String := f.getD ""

/-- A written row occupies the 8 cells A–H; absent trailing cells stay empty. -/
def padRow (cells : List String) : SRow :=
  cells.take 8 ++ List.replicate (8 - cells.length) ""

/-- Write `v` at 0-based row index `i`, extending the region with empty rows
as needed. -/
def setAt (r : Region) (i : Nat) (v : SRow) : Region :=
  (r ++ List.replicate (i + 1 - r.length) emptyRow).set i v

/-- The remote sheet calls the script performs. -/
inductive SheetOp where
  /-- `sheet_to_update.batch_clear(["A2:H"])` (line 56) -/
  | clear
  /-- `sheet_to_update.batch_update(batch_update)` (line 65); an entry `(i, row)`
  stands for the range `A{i}:H{i}` built by `enumerate(data_to_update, start=2)` -/
  | batchUpdate (entries : List (Nat × PRow))
  /-- `sheet.get(rng)` — performed only at module level (line 192), never
  inside `update_google_sheet` -/
  | get (rng : String)
deriving DecidableEq

/-- The `batch_update` list of lines 57–63: dataset row `j` goes to sheet row
`j + 2`. -/
def batch_update_entries (data : List PRow) : List (Nat × PRow) :=
  data.enum.map (fun p => (p.1 + 2, p.2))

/-- `update_google_sheet` (lines 54–66) as the ordered list of remote calls it
makes: one clear of A2:H, then one batched update.  It performs no read of the
sheet and returns `None`. -/
def update_google_sheet_ops (data : List PRow) : List SheetOp :=
  [.clear, .batchUpdate (batch_update_entries data)]

/-- The Python return value of `update_google_sheet`: the function body (lines
54–66) ends without a `return` statement, so the call returns `None` — in
particular it returns no read-back dataset. -/
def update_google_sheet_ret (_data : List PRow) : Option (List (List String)) :=
  none

/-- State semantics of one remote call on the A2:H region (a read leaves the
state unchanged). -/
def applySheetOp (r : Region) : SheetOp → Region
  | .clear => []
  | .batchUpdate es =>
    es.foldl (fun acc p => setAt acc (p.1 - 2) (padRow (p.2.map cellOfField))) r
  | .get _ => r

/-- The effect of `update_google_sheet(sheet, data)` on the sheet's A2:H
region. -/
def update_google_sheet_state (data : List PRow) (r : Region) : Region :=
  (update_google_sheet_ops data).foldl applySheetOp r

/-- Trailing empty cells of a row are trimmed by the Sheets values API on
read. -/
def trimRowTail (row : SRow) : List String :=
  (row.reverse.dropWhile (fun c => c = "")).reverse

/-- `sheet.get("A2:H")` (line 192): the region with trailing empty rows
omitted and each row's trailing empty cells trimmed. -/
def sheetGet (r : Region) : List (List String) :=
  ((r.reverse.dropWhile (fun row => row.all (fun c => c = ""))).reverse).map trimRowTail

/-! ### The snapshot writer (`save_data_to_txt`, main.py lines 165–175) -/

/-- The characters written for one row: `'\t'.join(row) + '\n'` (line 173). -/
def writeRowChars (row : List (List Char)) : List Char :=
  List.intercalate ['\t'] row ++ ['\n']

/-- The text written by `save_data_to_txt`, as a character sequence. -/
def snapshotChars (data : List (List (List Char))) : List Char :=
  (data.map writeRowChars).flatten

/-- The snapshot text for the committed dataset (rows of strings read back
from the sheet). -/
def snapshotOfSheet (rows : List (List String)) : List Char :=
  snapshotChars (rows.map (fun row => row.map String.data))

/-- UTF-16 code units of one character (a surrogate pair above U+FFFF). -/
def utf16Units (c : Char) : List Nat :=
  if c.toNat < 0x10000 then [c.toNat]
  else [0xD800 + (c.toNat - 0x10000) / 0x400, 0xDC00 + (c.toNat - 0x10000) % 0x400]

/-- UTF-16 encoding of a text. -/
def utf16Encode (s : List Char) : List Nat :=
  (s.map utf16Units).flatten

/-- UTF-16 decoding back to characters (surrogate pairs recombined). -/
def utf16Decode : List Nat → List Char
  | [] => []
  | [u] => [Char.ofNat u]
  | u :: v :: vs =>
    if 0xD800 ≤ u ∧ u < 0xDC00 then
      if 0xDC00 ≤ v ∧ v < 0xE000 then
        Char.ofNat (0x10000 + (u - 0xD800) * 0x400 + (v - 0xDC00)) :: utf16Decode vs
      else Char.ofNat u :: utf16Decode (v :: vs)
    else Char.ofNat u :: utf16Decode (v :: vs)

/-- The code units of the file `save_data_to_txt` writes (line 171,
`encoding='utf-16'`): Python's `utf-16` codec emits a byte-order mark, then
the text. -/
def writeFileUnits (data : List (List (List Char))) : List Nat :=
  0xFEFF :: utf16Encode (snapshotChars data)

/-- Reading the snapshot back as the spec prescribes: decode the 16-bit code
units (the codec strips the byte-order mark), split into lines, split each
line on the horizontal tab. -/
def readSnapshot (units : List Nat) : List (List (List Char)) :=
  let text := utf16Decode (if units.head? = some 0xFEFF then units.tail else units)
  ((text.splitOn '\n').dropLast).map (fun line => line.splitOn '\t')

/-! ### Module-level orchestration (main.py lines 178–197) -/

/-- The environment a run executes against: the URL list read from column M
(header row excluded, line 182) and each URL's fetch outcome — the net result
of `fetch_url(url)` followed by `ET.fromstring(response.content)`, after the
fetch's retries. -/
structure Env where
  urls : List String
  fetchResult : String → Except PyExc (List PRecord)

/-- Pipeline steps observable in a run's trace. -/
inductive Ev where
  | fetch (url : String)
  | updateSheet
  | readBack
  | writeSnapshot
  | sendEmail
deriving DecidableEq

/-- The `for url in urls_list` loop (lines 185–188): skip empty URLs, fetch,
parse, extend the accumulator; an exception aborts the loop.  Returns the
accumulated rows, the fetches performed, and the exception if one was
raised. -/
def processUrls (env : Env) : List String → (List PRow × List Ev × Option PyExc)
  | [] => ([], [], none)
  | url :: rest =>
    if url = "" then processUrls env rest
    else
      match env.fetchResult url with
      | .error e => ([], [.fetch url], some e)
      | .ok feed =>
        match parse_xml_content feed with
        | .error e => ([], [.fetch url], some e)
        | .ok (rows, _) =>
          let t := processUrls env rest
          (rows ++ t.1, .fetch url :: t.2.1, t.2.2)

/-- Whether fetching-and-parsing this URL raises: either `fetch_url` itself
ends in an exception, or `parse_xml_content` on the fetched feed does. -/
def fetchParseFails (env : Env) (url : String) : Bool :=
  match env.fetchResult url with
  | .error _ => true
  | .ok feed =>
    match parse_xml_content feed with
    | .error _ => true
    | .ok _ => false

/-- Observable final state of one run. -/
structure RunResult where
  /-- the sheet's A2:H region when the run ends -/
  sheet : Region
  /-- content of the snapshot file with this run's name, if one exists -/
  snapshot : Option (List Char)
  emailSent : Bool
  trace : List Ev
  error : Option PyExc
deriving DecidableEq

/-- Lines 185–197: accumulate all rows over the URL list; an unhandled
exception aborts the run with the sheet and any prior snapshot file untouched
and no email sent; otherwise update the sheet, read A2:H back, write the
snapshot (a prior same-named file is deleted and rewritten), and send the
email with that file attached. -/
def runPipeline (env : Env) (sheet0 : Region) (snap0 : Option (List Char)) : RunResult :=
  let t := processUrls env env.urls
  match t.2.2 with
  | some e => ⟨sheet0, snap0, false, t.2.1, some e⟩
  | none =>
    let sheet1 := update_google_sheet_state t.1 sheet0
    let committed := sheetGet sheet1
    ⟨sheet1, some (snapshotOfSheet committed), true,
     t.2.1 ++ [.updateSheet, .readBack, .writeSnapshot, .sendEmail], none⟩

/-- Environment for the C5 witness: one empty URL and one URL whose fetch
raises after its retries. -/
def envAbort : Env :=
  ⟨["", "bad"], fun _ => .error .connectionError⟩

/-- Environment for the C10 witness: one empty URL and one URL fetching a
filler-only feed. -/
def envFillerOnly : Env :=
  ⟨["", "u"], fun _ => .ok [recFiller]⟩

/-- A record whose `TEMATYKA` element is missing, so its row's last field is
the empty string. -/
def recNoGenre : PRecord :=
  ⟨some (some "T"), some (some "d"), some (some "t"), some (some "e"),
   some (some "c"), some (some "y"), some (some "r"), none⟩

/-- Trivial environment (no URLs) for instantiating run theorems. -/
def envTrivial : Env :=
  ⟨[], fun _ => .error .otherError⟩

/-! ### Helper lemmas and claim theorems -/

/-- The loop of `parse_xml_content`, when every record has a `TITEL` element,
emits exactly the non-filler records' rows in order, and exactly their
warnings. -/
theorem parseLoop_eq (records : List PRecord) (h : ∀ r ∈ records, r.titel.isSome) :
    parseLoop records =
      .ok ((records.filter (fun r => ! isFiller r)).map rowOfRecord,
           (records.filter (fun r => ! isFiller r)).flatMap recordWarnings) := by
  induction records with
  | nil => rfl
  | cons r rs ih =>
    obtain ⟨t, ht⟩ := Option.isSome_iff_exists.mp (h r (List.mem_cons_self r rs))
    have hrs : ∀ x ∈ rs, x.titel.isSome := fun x hx => h x (List.mem_cons_of_mem r hx)
    by_cases hfill : t = some "Zakończenie dnia"
    · have hfilt : List.filter (fun r => ! isFiller r) (r :: rs) =
          List.filter (fun r => ! isFiller r) rs := by
        simp [List.filter_cons, isFiller, ht, hfill]
      rw [hfilt]
      simp only [parseLoop, ht, if_pos hfill, ih hrs]
    · have hfilt : List.filter (fun r => ! isFiller r) (r :: rs) =
          r :: List.filter (fun r => ! isFiller r) rs := by
        simp [List.filter_cons, isFiller, ht, hfill]
      rw [hfilt]
      simp only [parseLoop, ht, if_neg hfill, ih hrs, List.map_cons, List.flatMap_cons]
      have : rowOfRecord r = recordRow t r := by simp [rowOfRecord, ht]
      rw [this]

/-- If some record lacks a `TITEL` element, the loop raises `AttributeError`. -/
theorem parseLoop_error (records : List PRecord) (h : ∃ r ∈ records, r.titel = none) :
    parseLoop records = .error .attributeError := by
  induction records with
  | nil => simp at h
  | cons r rs ih =>
    obtain ⟨x, hx, hxt⟩ := h
    rcases List.mem_cons.mp hx with rfl | hx'
    · simp only [parseLoop, hxt]
    · cases ht : r.titel with
      | none => simp only [parseLoop, ht]
      | some t =>
        have herr := ih ⟨x, hx', hxt⟩
        by_cases hfill : t = some "Zakończenie dnia"
        · simp only [parseLoop, ht, if_pos hfill, herr]
        · simp only [parseLoop, ht, if_neg hfill, herr]

/-- C1: for a feed in which every record has a `TITEL` element,
`parse_xml_content` emits exactly one 8-field row per record in document
order, except the records whose title text equals `"Zakończenie dnia"`, which
are dropped before any further processing, so no warning of theirs is logged;
the number of rows is the number of records minus the number of filler
records, and the log is the count line followed by the non-filler records'
warnings only. -/
theorem parse_one_row_per_nonfiller_record (records : List PRecord)
    (h : ∀ r ∈ records, r.titel.isSome) :
    ∃ rows logs, parse_xml_content records = .ok (rows, logs) ∧
      rows = (records.filter (fun r => ! isFiller r)).map rowOfRecord ∧
      rows.length + (records.filter isFiller).length = records.length ∧
      logs = countMsg records.length ::
        (records.filter (fun r => ! isFiller r)).flatMap recordWarnings := by
  refine ⟨_, _, ?_, rfl, ?_, rfl⟩
  · simp [parse_xml_content, parseLoop_eq records h]
  · rw [List.length_map]
    have hlen := List.length_eq_length_filter_add (l := records) isFiller
    omega

/-- Witness for C1 on a concrete two-record feed (one filler, one regular). -/
theorem parse_one_row_per_nonfiller_record_witness :
    (∀ r ∈ [recFiller, recShow], r.titel.isSome) ∧
    (∃ rows logs, parse_xml_content [recFiller, recShow] = .ok (rows, logs) ∧
      rows = (([recFiller, recShow]).filter (fun r => ! isFiller r)).map rowOfRecord ∧
      rows.length + (([recFiller, recShow]).filter isFiller).length = [recFiller, recShow].length ∧
      logs = countMsg [recFiller, recShow].length ::
        (([recFiller, recShow]).filter (fun r => ! isFiller r)).flatMap recordWarnings) :=
  ⟨by decide, parse_one_row_per_nonfiller_record [recFiller, recShow] (by decide)⟩

/-- C2 counterexample: `recShow`'s `EPG` element is present but has no text
content, so the emitted row's fourth entry is Python `None` (`none`), not a
string — the claim that every field of every emitted row is a string fails on
this concrete feed. -/
theorem parse_all_fields_strings_counterexample :
    parse_xml_content [recShow] =
      .ok ([[some "20240101", some "1000", some "Show", none, some "EP1",
             some "2020", some "PG", some "Drama"]], [countMsg 1]) ∧
    ([some "20240101", some "1000", some "Show", none, some "EP1",
      some "2020", some "PG", some "Drama"] : PRow).all Option.isSome = false :=
  ⟨rfl, rfl⟩

/-- C2 amended: a missing optional sub-element yields the empty string for its
field, and a present sub-element yields its text content — which is Python
`None` (not a string, and not the empty string) when the element has no text;
the same holds for the title.  Every emitted row has exactly 8 such fields. -/
theorem parse_missing_field_becomes_empty_string (records : List PRecord)
    (h : ∀ r ∈ records, r.titel.isSome) :
    ∃ rows logs, parse_xml_content records = .ok (rows, logs) ∧
      rows = (records.filter (fun r => ! isFiller r)).map rowOfRecord ∧
      (∀ r : PRecord, rowOfRecord r =
        [fieldText r.pr_airdate, fieldText r.start, r.titel.join, fieldText r.epg,
         fieldText r.pr_code, fieldText r.jahr, fieldText r.plrating, fieldText r.tematyka]) ∧
      fieldText none = some "" ∧ (∀ t, fieldText (some t) = t) ∧
      (∀ row ∈ rows, row.length = 8) := by
  refine ⟨_, countMsg records.length ::
      (records.filter (fun r => ! isFiller r)).flatMap recordWarnings,
    ?_, rfl, fun r => rfl, rfl, fun t => rfl, ?_⟩
  · simp [parse_xml_content, parseLoop_eq records h]
  · intro row hrow
    obtain ⟨r, _, rfl⟩ := List.mem_map.mp hrow
    rfl

/-- Witness for the amended C2 on a concrete one-record feed. -/
theorem parse_missing_field_becomes_empty_string_witness :
    (∀ r ∈ [recShow], r.titel.isSome) ∧
    (∃ rows logs, parse_xml_content [recShow] = .ok (rows, logs) ∧
      rows = ([recShow].filter (fun r => ! isFiller r)).map rowOfRecord ∧
      (∀ r : PRecord, rowOfRecord r =
        [fieldText r.pr_airdate, fieldText r.start, r.titel.join, fieldText r.epg,
         fieldText r.pr_code, fieldText r.jahr, fieldText r.plrating, fieldText r.tematyka]) ∧
      fieldText none = some "" ∧ (∀ t, fieldText (some t) = t) ∧
      (∀ row ∈ rows, row.length = 8)) :=
  ⟨by decide, parse_missing_field_becomes_empty_string [recShow] (by decide)⟩

/-- C8: a record lacking a `TITEL` sub-element makes the whole parse raise
(`.text` of `None` is an `AttributeError`), so no rows are returned for that
feed; conversely, when every record has a `TITEL` sub-element the parse
returns normally. -/
theorem parse_missing_title_fails_whole_feed (records : List PRecord) :
    ((∃ r ∈ records, r.titel = none) → parse_xml_content records = .error .attributeError) ∧
    ((∀ r ∈ records, r.titel.isSome) → ∃ v, parse_xml_content records = .ok v) := by
  constructor
  · intro h
    simp [parse_xml_content, parseLoop_error records h]
  · intro h
    refine ⟨((records.filter (fun r => ! isFiller r)).map rowOfRecord,
             countMsg records.length ::
               (records.filter (fun r => ! isFiller r)).flatMap recordWarnings), ?_⟩
    simp [parse_xml_content, parseLoop_eq records h]

/-- Witness for C8: a concrete feed with a title-less record fails; a concrete
feed whose records all carry titles parses. -/
theorem parse_missing_title_fails_whole_feed_witness :
    parse_xml_content [recShow, ⟨none, none, none, none, none, none, none, none⟩] =
      .error .attributeError ∧
    (∃ v, parse_xml_content [recShow] = .ok v) :=
  ⟨(parse_missing_title_fails_whole_feed
      [recShow, ⟨none, none, none, none, none, none, none, none⟩]).1
      ⟨⟨none, none, none, none, none, none, none, none⟩, by decide, rfl⟩,
   (parse_missing_title_fails_whole_feed [recShow]).2 (by decide)⟩

/-- Exhausting the 5 attempts on consecutive retryable failures: 5 attempts,
4 fixed 120-second sleeps, and a `RetryError` wrapping the last exception. -/
theorem tenacityRetry_exhaust {α : Type} (re : PyExc → Bool)
    (beh : Nat → Except PyExc α) (e : Nat → PyExc)
    (h : ∀ n, 1 ≤ n → n ≤ 5 → beh n = .error (e n) ∧ re (e n) = true) :
    tenacityRetry re beh = ⟨.retryError (e 5), 5, [120, 120, 120, 120]⟩ := by
  obtain ⟨h1, r1⟩ := h 1 (by omega) (by omega)
  obtain ⟨h2, r2⟩ := h 2 (by omega) (by omega)
  obtain ⟨h3, r3⟩ := h 3 (by omega) (by omega)
  obtain ⟨h4, r4⟩ := h 4 (by omega) (by omega)
  obtain ⟨h5, r5⟩ := h 5 (by omega) (by omega)
  simp only [tenacityRetry, tenacityGo, h1, r1, h2, r2, h3, r3, h4, r4, if_true]
  norm_num [tenacityGo, h5, r5]

/-- C3 counterexample: the fetch operation failing 5 consecutive times with a
`RequestException` makes exactly 5 attempts with 120-second delays, but then
raises `tenacity.RetryError` wrapping the exception — not the underlying
exception itself, contradicting the claim. -/
theorem retry_exhaustion_raises_underlying_counterexample :
    fetch_url_call (fun _ => (.error .connectionError : Except PyExc Unit)) =
      ⟨.retryError .connectionError, 5, [120, 120, 120, 120]⟩ ∧
    (fetch_url_call (fun _ => (.error .connectionError : Except PyExc Unit))).outcome ≠
      .raised .connectionError := by
  exact ⟨by decide, by decide⟩

/-- C3 amended: for each of the three retry-guarded operations, 5 consecutive
failures of its retried exception type produce exactly 5 attempts with a
fixed 120-second delay between them, and then a `tenacity.RetryError`
wrapping the underlying exception (no 6th attempt). -/
theorem retry_exhaustion_five_attempts {α : Type}
    (beh : Nat → Except PyExc α) (e : Nat → PyExc) :
    ((∀ n, 1 ≤ n → n ≤ 5 → beh n = .error (e n) ∧ isRequestException (e n) = true) →
      fetch_url_call beh = ⟨.retryError (e 5), 5, [120, 120, 120, 120]⟩) ∧
    ((∀ n, 1 ≤ n → n ≤ 5 → beh n = .error (e n) ∧ isAPIError (e n) = true) →
      update_google_sheet_call beh = ⟨.retryError (e 5), 5, [120, 120, 120, 120]⟩) ∧
    ((∀ n, 1 ≤ n → n ≤ 5 → beh n = .error (e n) ∧ isSMTPException (e n) = true) →
      send_email_with_attachment_call beh = ⟨.retryError (e 5), 5, [120, 120, 120, 120]⟩) :=
  ⟨fun h => tenacityRetry_exhaust isRequestException beh e h,
   fun h => tenacityRetry_exhaust isAPIError beh e h,
   fun h => tenacityRetry_exhaust isSMTPException beh e h⟩

/-- Witness for the amended C3 at the three operations' retried exception
types. -/
theorem retry_exhaustion_five_attempts_witness :
    fetch_url_call (fun _ => (.error .connectionError : Except PyExc Unit)) =
      ⟨.retryError .connectionError, 5, [120, 120, 120, 120]⟩ ∧
    update_google_sheet_call (fun _ => (.error .apiError : Except PyExc Unit)) =
      ⟨.retryError .apiError, 5, [120, 120, 120, 120]⟩ ∧
    send_email_with_attachment_call (fun _ => (.error .smtpException : Except PyExc Unit)) =
      ⟨.retryError .smtpException, 5, [120, 120, 120, 120]⟩ :=
  ⟨(retry_exhaustion_five_attempts (fun _ => .error .connectionError)
      (fun _ => .connectionError)).1 (fun _ _ _ => ⟨rfl, rfl⟩),
   (retry_exhaustion_five_attempts (fun _ => .error .apiError)
      (fun _ => .apiError)).2.1 (fun _ _ _ => ⟨rfl, rfl⟩),
   (retry_exhaustion_five_attempts (fun _ => .error .smtpException)
      (fun _ => .smtpException)).2.2 (fun _ _ _ => ⟨rfl, rfl⟩)⟩

/-- C7 counterexample: bad URL syntax makes `requests.get` raise
`MissingSchema`, a subclass of `RequestException`, so the fetch retries it —
5 attempts with 120-second sleeps rather than immediate propagation after the
first attempt, contradicting the claim. -/
theorem fetch_bad_url_retried_counterexample :
    fetch_url_call (fun _ => (.error .missingSchema : Except PyExc Unit)) =
      ⟨.retryError .missingSchema, 5, [120, 120, 120, 120]⟩ ∧
    (fetch_url_call (fun _ => (.error .missingSchema : Except PyExc Unit))).attempts ≠ 1 := by
  exact ⟨by decide, by decide⟩

/-- C7 amended: the fetch retries exactly the `RequestException` hierarchy —
which includes the bad-URL-syntax exceptions `MissingSchema` and `InvalidURL`
— and any failure outside that hierarchy propagates unchanged after the first
attempt, with no retry and no delay. -/
theorem fetch_nonrequest_exception_immediate {α : Type}
    (beh : Nat → Except PyExc α) (e : PyExc)
    (h1 : isRequestException e = false) (h2 : beh 1 = .error e) :
    fetch_url_call beh = ⟨.raised e, 1, []⟩ ∧
    isRequestException .missingSchema = true ∧ isRequestException .invalidURL = true := by
  refine ⟨?_, rfl, rfl⟩
  simp only [fetch_url_call, tenacityRetry, tenacityGo, h2, h1, Bool.false_eq_true, if_false]

/-- Witness for the amended C7: a `TypeError` on the first attempt propagates
at once. -/
theorem fetch_nonrequest_exception_immediate_witness :
    isRequestException .typeError = false ∧
    (fetch_url_call (fun _ => (.error .typeError : Except PyExc Unit)) =
        ⟨.raised .typeError, 1, []⟩ ∧
      isRequestException .missingSchema = true ∧ isRequestException .invalidURL = true) :=
  ⟨rfl, fetch_nonrequest_exception_immediate (fun _ => .error .typeError) .typeError rfl rfl⟩

/-- C9: the clear-then-write synchronization makes the final A2:H region a
function of the dataset alone, so running it twice with the same dataset ends
in the same state as running it once. -/
theorem sheet_sync_idempotent :
    (∀ (d : List PRow) (r r' : Region),
        update_google_sheet_state d r = update_google_sheet_state d r') ∧
    (∀ (d : List PRow) (r : Region),
        update_google_sheet_state d (update_google_sheet_state d r) =
          update_google_sheet_state d r) := by
  have key : ∀ (d : List PRow) (r : Region),
      update_google_sheet_state d r =
        applySheetOp [] (.batchUpdate (batch_update_entries d)) :=
    fun d r => rfl
  exact ⟨fun d r r' => (key d r).trans (key d r').symm,
         fun d r => (key d _).trans (key d r).symm⟩

/-- Equation: an empty URL is skipped. -/
theorem processUrls_cons_empty (env : Env) (rest : List String) :
    processUrls env ("" :: rest) = processUrls env rest := by
  simp [processUrls]

/-- Equation: a non-empty URL whose fetch raises ends the loop. -/
theorem processUrls_cons_fail (env : Env) (url : String) (rest : List String)
    (e : PyExc) (hu : url ≠ "") (hfr : env.fetchResult url = .error e) :
    processUrls env (url :: rest) = ([], [.fetch url], some e) := by
  simp only [processUrls, if_neg hu, hfr]

/-- Equation: a non-empty URL whose fetch succeeds but whose parse raises ends
the loop. -/
theorem processUrls_cons_parse_fail (env : Env) (url : String)
    (rest : List String) (feed : List PRecord) (e : PyExc) (hu : url ≠ "")
    (hfr : env.fetchResult url = .ok feed)
    (hp : parse_xml_content feed = .error e) :
    processUrls env (url :: rest) = ([], [.fetch url], some e) := by
  simp only [processUrls, if_neg hu, hfr, hp]

/-- Equation: a non-empty URL that fetches and parses extends the accumulator
and the loop continues. -/
theorem processUrls_cons_ok (env : Env) (url : String) (rest : List String)
    (feed : List PRecord) (rows : List PRow) (logs : List String)
    (hu : url ≠ "") (hfr : env.fetchResult url = .ok feed)
    (hp : parse_xml_content feed = .ok (rows, logs)) :
    processUrls env (url :: rest) =
      (rows ++ (processUrls env rest).1, .fetch url :: (processUrls env rest).2.1,
       (processUrls env rest).2.2) := by
  simp only [processUrls, if_neg hu, hfr, hp]

/-- Every event in the URL loop's trace is a fetch. -/
theorem processUrls_trace_fetch (env : Env) (urls : List String) :
    ∀ ev ∈ (processUrls env urls).2.1, ∃ u, ev = Ev.fetch u := by
  induction urls with
  | nil => intro ev h; simp [processUrls] at h
  | cons url rest ih =>
    intro ev h
    by_cases hu : url = ""
    · subst hu
      rw [processUrls_cons_empty] at h
      exact ih ev h
    · rcases hfr : env.fetchResult url with e | feed
      · rw [processUrls_cons_fail env url rest e hu hfr] at h
        simp only [List.mem_singleton] at h
        exact ⟨url, h⟩
      · rcases hp : parse_xml_content feed with e | ⟨rows, logs⟩
        · rw [processUrls_cons_parse_fail env url rest feed e hu hfr hp] at h
          simp only [List.mem_singleton] at h
          exact ⟨url, h⟩
        · rw [processUrls_cons_ok env url rest feed rows logs hu hfr hp] at h
          simp only [List.mem_cons] at h
          rcases h with rfl | h''
          · exact ⟨url, rfl⟩
          · exact ih ev h''

/-- If some non-empty URL's fetch-or-parse fails, the URL loop ends in an
exception. -/
theorem processUrls_error (env : Env) (urls : List String)
    (h : ∃ url ∈ urls, url ≠ "" ∧ fetchParseFails env url = true) :
    ∃ e, (processUrls env urls).2.2 = some e := by
  induction urls with
  | nil => simp at h
  | cons url rest ih =>
    obtain ⟨u, hu, hne, hf⟩ := h
    by_cases hurl : url = ""
    · have hm : u ∈ rest := by
        rcases List.mem_cons.mp hu with rfl | h'
        · exact absurd hurl hne
        · exact h'
      obtain ⟨e, he⟩ := ih ⟨u, hm, hne, hf⟩
      subst hurl
      exact ⟨e, by rw [processUrls_cons_empty]; exact he⟩
    · rcases hfr : env.fetchResult url with e | feed
      · exact ⟨e, by rw [processUrls_cons_fail env url rest e hurl hfr]⟩
      · rcases hp : parse_xml_content feed with e | ⟨rows, logs⟩
        · exact ⟨e, by rw [processUrls_cons_parse_fail env url rest feed e hurl hfr hp]⟩
        · have hm : u ∈ rest := by
            rcases List.mem_cons.mp hu with rfl | h'
            · exfalso
              simp [fetchParseFails, hfr, hp] at hf
            · exact h'
          obtain ⟨e, he⟩ := ih ⟨u, hm, hne, hf⟩
          exact ⟨e, by rw [processUrls_cons_ok env url rest feed rows logs hurl hfr hp]; exact he⟩

/-- C5: if the fetch or parse of any non-empty URL raises (after the fetch's
retries are exhausted), the run aborts: no sheet update, no read-back, no
snapshot write, no email — the A2:H region and any prior snapshot file are
left exactly as they were. -/
theorem run_aborts_on_fetch_or_parse_failure (env : Env) (sheet0 : Region)
    (snap0 : Option (List Char))
    (h : ∃ url ∈ env.urls, url ≠ "" ∧ fetchParseFails env url = true) :
    (runPipeline env sheet0 snap0).sheet = sheet0 ∧
    (runPipeline env sheet0 snap0).snapshot = snap0 ∧
    (runPipeline env sheet0 snap0).emailSent = false ∧
    (runPipeline env sheet0 snap0).error.isSome = true ∧
    Ev.updateSheet ∉ (runPipeline env sheet0 snap0).trace ∧
    Ev.readBack ∉ (runPipeline env sheet0 snap0).trace ∧
    Ev.writeSnapshot ∉ (runPipeline env sheet0 snap0).trace ∧
    Ev.sendEmail ∉ (runPipeline env sheet0 snap0).trace := by
  obtain ⟨e, he⟩ := processUrls_error env env.urls h
  have hrun : runPipeline env sheet0 snap0 =
      ⟨sheet0, snap0, false, (processUrls env env.urls).2.1, some e⟩ := by
    simp only [runPipeline, he]
  rw [hrun]
  refine ⟨rfl, rfl, rfl, rfl, ?_, ?_, ?_, ?_⟩ <;>
  · intro hmem
    obtain ⟨u, hu⟩ := processUrls_trace_fetch env env.urls _ hmem
    exact Ev.noConfusion hu

/-- Witness for C5: on `envAbort` the run leaves the sheet and snapshot file
untouched, sends no email, and performs none of the late pipeline steps. -/
theorem run_aborts_on_fetch_or_parse_failure_witness :
    (∃ url ∈ envAbort.urls, url ≠ "" ∧ fetchParseFails envAbort url = true) ∧
    ((runPipeline envAbort [["old"]] (some ['o'])).sheet = [["old"]] ∧
     (runPipeline envAbort [["old"]] (some ['o'])).snapshot = some ['o'] ∧
     (runPipeline envAbort [["old"]] (some ['o'])).emailSent = false ∧
     (runPipeline envAbort [["old"]] (some ['o'])).error.isSome = true ∧
     Ev.updateSheet ∉ (runPipeline envAbort [["old"]] (some ['o'])).trace ∧
     Ev.readBack ∉ (runPipeline envAbort [["old"]] (some ['o'])).trace ∧
     Ev.writeSnapshot ∉ (runPipeline envAbort [["old"]] (some ['o'])).trace ∧
     Ev.sendEmail ∉ (runPipeline envAbort [["old"]] (some ['o'])).trace) :=
  ⟨⟨"bad", by decide, by decide, rfl⟩,
   run_aborts_on_fetch_or_parse_failure envAbort [["old"]] (some ['o'])
     ⟨"bad", by decide, by decide, rfl⟩⟩

/-- If every URL is empty or fetches a feed of filler-only records, the URL
loop accumulates no rows and raises nothing. -/
theorem processUrls_empty (env : Env) (urls : List String)
    (h : ∀ url ∈ urls, url = "" ∨ ∃ feed, env.fetchResult url = .ok feed ∧
      ∀ r ∈ feed, r.titel = some (some "Zakończenie dnia")) :
    (processUrls env urls).1 = [] ∧ (processUrls env urls).2.2 = none := by
  induction urls with
  | nil => exact ⟨rfl, rfl⟩
  | cons url rest ih =>
    have hrest := ih (fun u hu => h u (List.mem_cons_of_mem url hu))
    by_cases hu : url = ""
    · subst hu
      rw [processUrls_cons_empty]
      exact hrest
    · obtain ⟨feed, hf, hall⟩ := (h url (List.mem_cons_self url rest)).resolve_left hu
      have htitles : ∀ r ∈ feed, r.titel.isSome := by
        intro r hr; rw [hall r hr]; rfl
      have hfilt : feed.filter (fun r => ! isFiller r) = [] := by
        rw [List.filter_eq_nil_iff]
        intro r hr
        simp [isFiller, hall r hr]
      have hparse : parse_xml_content feed = .ok ([], [countMsg feed.length]) := by
        simp [parse_xml_content, parseLoop_eq feed htitles, hfilt]
      rw [processUrls_cons_ok env url rest feed [] [countMsg feed.length] hu hf hparse]
      simpa using hrest

/-- C10: when the URL list has no non-empty entry or every fetched record is
a filler, the run still completes the whole pipeline: A2:H ends cleared and
empty, the read-back is empty, a zero-line snapshot file replaces any prior
one, and the email is still sent. -/
theorem run_completes_on_empty_dataset (env : Env) (sheet0 : Region)
    (snap0 : Option (List Char))
    (h : ∀ url ∈ env.urls, url = "" ∨ ∃ feed, env.fetchResult url = .ok feed ∧
      ∀ r ∈ feed, r.titel = some (some "Zakończenie dnia")) :
    (runPipeline env sheet0 snap0).error = none ∧
    (runPipeline env sheet0 snap0).sheet = [] ∧
    sheetGet (runPipeline env sheet0 snap0).sheet = [] ∧
    (runPipeline env sheet0 snap0).snapshot = some [] ∧
    (runPipeline env sheet0 snap0).emailSent = true := by
  obtain ⟨hrows, herr⟩ := processUrls_empty env env.urls h
  have hrun : runPipeline env sheet0 snap0 =
      ⟨[], some [], true, (processUrls env env.urls).2.1 ++
        [.updateSheet, .readBack, .writeSnapshot, .sendEmail], none⟩ := by
    simp only [runPipeline, herr, hrows]
    rfl
  rw [hrun]
  exact ⟨rfl, rfl, rfl, rfl, rfl⟩

/-- Witness for C10 on `envFillerOnly`, starting from a stale sheet and an
existing prior snapshot file. -/
theorem run_completes_on_empty_dataset_witness :
    (∀ url ∈ envFillerOnly.urls, url = "" ∨
      ∃ feed, envFillerOnly.fetchResult url = .ok feed ∧
        ∀ r ∈ feed, r.titel = some (some "Zakończenie dnia")) ∧
    ((runPipeline envFillerOnly [["stale"]] (some ['z'])).error = none ∧
     (runPipeline envFillerOnly [["stale"]] (some ['z'])).sheet = [] ∧
     sheetGet (runPipeline envFillerOnly [["stale"]] (some ['z'])).sheet = [] ∧
     (runPipeline envFillerOnly [["stale"]] (some ['z'])).snapshot = some [] ∧
     (runPipeline envFillerOnly [["stale"]] (some ['z'])).emailSent = true) :=
  ⟨fun url _ => Or.inr ⟨[recFiller], rfl, by decide⟩,
   run_completes_on_empty_dataset envFillerOnly [["stale"]] (some ['z'])
     (fun url _ => Or.inr ⟨[recFiller], rfl, by decide⟩)⟩

/-- C4 counterexample: `update_google_sheet` neither reads the range back nor
returns a dataset — its call list on a concrete dataset holds only the clear
and the batched write, and its Python return value is `None`. -/
theorem update_returns_no_readback_counterexample :
    update_google_sheet_ret
      [[some "a", some "", some "", some "", some "", some "", some "", some ""]] = none ∧
    SheetOp.get "A2:H" ∉ update_google_sheet_ops
      [[some "a", some "", some "", some "", some "", some "", some "", some ""]] ∧
    update_google_sheet_ops
      [[some "a", some "", some "", some "", some "", some "", some "", some ""]] =
      [.clear, .batchUpdate
        [(2, [some "a", some "", some "", some "", some "", some "", some "", some ""])]] := by
  exact ⟨rfl, by decide, rfl⟩

/-- C4 amended: the read-back of A2:H is performed by the module-level code
right after `update_google_sheet` returns (which itself returns `None`), and
the snapshot writer receives that read-back value; it is not in general the
in-memory accumulator — the read-back can differ from it (the remote store
trims trailing empty cells). -/
theorem snapshot_uses_readback (env : Env) (sheet0 : Region)
    (snap0 : Option (List Char))
    (h : (processUrls env env.urls).2.2 = none) :
    (runPipeline env sheet0 snap0).snapshot =
      some (snapshotOfSheet (sheetGet
        (update_google_sheet_state (processUrls env env.urls).1 sheet0))) ∧
    update_google_sheet_ret (processUrls env env.urls).1 = none ∧
    (∃ (env2 : Env) (s2 : Region),
      (processUrls env2 env2.urls).2.2 = none ∧
      (runPipeline env2 s2 none).snapshot ≠
        some (snapshotChars ((processUrls env2 env2.urls).1.map
          (fun row => (row.map cellOfField).map String.data)))) := by
  refine ⟨?_, rfl, ?_⟩
  · simp only [runPipeline, h]
  · refine ⟨⟨["u"], fun _ => .ok [recNoGenre]⟩, [], rfl, ?_⟩
    decide

/-- A code unit outside the high-surrogate range decodes on its own. -/
theorem utf16Decode_cons_single (u : Nat) (rest : List Nat)
    (hu : ¬(0xD800 ≤ u ∧ u < 0xDC00)) :
    utf16Decode (u :: rest) = Char.ofNat u :: utf16Decode rest := by
  cases rest with
  | nil => rfl
  | cons v vs => simp only [utf16Decode, if_neg hu]

/-- UTF-16 decoding inverts UTF-16 encoding on every text. -/
theorem utf16_roundtrip (s : List Char) : utf16Decode (utf16Encode s) = s := by
  induction s with
  | nil => rfl
  | cons c s ih =>
    have hval : c.toNat < 0xD800 ∨ (0xDFFF < c.toNat ∧ c.toNat < 0x110000) := c.valid
    have henc : utf16Encode (c :: s) = utf16Units c ++ utf16Encode s := by
      simp [utf16Encode]
    rw [henc]
    by_cases hbig : c.toNat < 0x10000
    · have hunits : utf16Units c = [c.toNat] := by
        simp [utf16Units, hbig]
      rw [hunits, List.singleton_append,
          utf16Decode_cons_single c.toNat _ (by omega), Char.ofNat_toNat, ih]
    · have hunits : utf16Units c =
          [0xD800 + (c.toNat - 0x10000) / 0x400, 0xDC00 + (c.toNat - 0x10000) % 0x400] := by
        simp [utf16Units, hbig]
      have hhigh : 0xD800 ≤ 0xD800 + (c.toNat - 0x10000) / 0x400 ∧
          0xD800 + (c.toNat - 0x10000) / 0x400 < 0xDC00 := by omega
      have hlow : 0xDC00 ≤ 0xDC00 + (c.toNat - 0x10000) % 0x400 ∧
          0xDC00 + (c.toNat - 0x10000) % 0x400 < 0xE000 := by omega
      rw [hunits, List.cons_append, List.singleton_append]
      simp only [utf16Decode, if_pos hhigh, if_pos hlow]
      have harith : 0x10000 + (0xD800 + (c.toNat - 0x10000) / 0x400 - 0xD800) * 0x400 +
          (0xDC00 + (c.toNat - 0x10000) % 0x400 - 0xDC00) = c.toNat := by omega
      rw [harith, Char.ofNat_toNat, ih]

/-- `intercalate` over a list with a nonempty tail peels off its head. -/
theorem intercalate_cons_of_ne_nil {α : Type} (sep a : List α)
    (l : List (List α)) (h : l ≠ []) :
    List.intercalate sep (a :: l) = a ++ sep ++ List.intercalate sep l := by
  obtain ⟨b, l', rfl⟩ := List.exists_cons_of_ne_nil h
  simp [List.intercalate, List.intersperse, List.append_assoc]

/-- Concatenating newline-terminated lines is intercalating the lines with a
final empty line. -/
theorem flatten_map_append_newline (ls : List (List Char)) :
    (ls.map (fun l => l ++ ['\n'])).flatten = List.intercalate ['\n'] (ls ++ [[]]) := by
  induction ls with
  | nil => rfl
  | cons l ls ih =>
    rw [List.map_cons, List.flatten_cons, ih, List.cons_append,
        intercalate_cons_of_ne_nil ['\n'] l (ls ++ [[]]) (by simp), List.append_assoc]

/-- A symbol occurring neither in the separator nor in any part does not occur
in their intercalation. -/
theorem not_mem_intercalate {α : Type} (x : α) (sep : List α)
    (hsep : x ∉ sep) (rows : List (List α)) (h : ∀ f ∈ rows, x ∉ f) :
    x ∉ List.intercalate sep rows := by
  induction rows with
  | nil => simp [List.intercalate, List.intersperse]
  | cons a l ih =>
    cases l with
    | nil =>
      simpa [List.intercalate, List.intersperse] using h a (List.mem_cons_self a [])
    | cons b l' =>
      rw [intercalate_cons_of_ne_nil sep a (b :: l') (by simp)]
      intro hx
      rcases List.mem_append.mp hx with hx' | hx'
      · rcases List.mem_append.mp hx' with hx'' | hx''
        · exact h a (List.mem_cons_self a (b :: l')) hx''
        · exact hsep hx''
      · exact ih (fun f hf => h f (List.mem_cons_of_mem a hf)) hx'

/-- Splitting each written line on the tab recovers the rows. -/
theorem map_splitOn_tab (d : List (List (List Char)))
    (hne : ∀ row ∈ d, row ≠ [])
    (htab : ∀ row ∈ d, ∀ f ∈ row, '\t' ∉ f) :
    (d.map (fun row => List.intercalate ['\t'] row)).map
      (fun line => line.splitOn '\t') = d := by
  induction d with
  | nil => rfl
  | cons row rows ih =>
    rw [List.map_cons, List.map_cons,
        List.splitOn_intercalate row '\t'
          (fun f hf => htab row (List.mem_cons_self row rows) f hf)
          (hne row (List.mem_cons_self row rows)),
        ih (fun r hr => hne r (List.mem_cons_of_mem row hr))
           (fun r hr => htab r (List.mem_cons_of_mem row hr))]

/-- C6 counterexample: a field containing a tab breaks the round-trip — the
single written record reads back as one row of 9 fields, not the row
written. -/
theorem snapshot_roundtrip_counterexample :
    readSnapshot (writeFileUnits [[['a', '\t', 'b'], [], [], [], [], [], [], []]]) =
      [[['a'], ['b'], [], [], [], [], [], [], []]] ∧
    readSnapshot (writeFileUnits [[['a', '\t', 'b'], [], [], [], [], [], [], []]]) ≠
      [[['a', '\t', 'b'], [], [], [], [], [], [], []]] := by
  exact ⟨by decide, by decide⟩

/-- C6 amended: for a dataset of N records of 8 fields each, none of whose
fields contains a horizontal tab or a newline, writing with
`save_data_to_txt` and reading back (16-bit decode, line split, tab split)
yields exactly N rows of 8 fields each, identical field-for-field. -/
theorem snapshot_roundtrip (d : List (List (List Char)))
    (h8 : ∀ row ∈ d, row.length = 8)
    (htab : ∀ row ∈ d, ∀ f ∈ row, '\t' ∉ f)
    (hnl : ∀ row ∈ d, ∀ f ∈ row, '\n' ∉ f) :
    readSnapshot (writeFileUnits d) = d ∧
    (readSnapshot (writeFileUnits d)).length = d.length ∧
    (∀ row ∈ readSnapshot (writeFileUnits d), row.length = 8) := by
  have hrne : ∀ row ∈ d, row ≠ [] := by
    intro row hrow hnil
    have hlen := h8 row hrow
    rw [hnil] at hlen
    simp at hlen
  have hmain : readSnapshot (writeFileUnits d) = d := by
    have hbom : (if (writeFileUnits d).head? = some 0xFEFF
        then (writeFileUnits d).tail else writeFileUnits d) =
        utf16Encode (snapshotChars d) := by
      simp [writeFileUnits]
    have htext : snapshotChars d =
        List.intercalate ['\n'] ((d.map (fun row => List.intercalate ['\t'] row)) ++ [[]]) := by
      rw [snapshotChars]
      have hmm : d.map writeRowChars =
          (d.map (fun row => List.intercalate ['\t'] row)).map (fun l => l ++ ['\n']) := by
        rw [List.map_map]
        rfl
      rw [hmm, flatten_map_append_newline]
    have hsplit : (snapshotChars d).splitOn '\n' =
        (d.map (fun row => List.intercalate ['\t'] row)) ++ [[]] := by
      rw [htext]
      refine List.splitOn_intercalate _ '\n' ?_ (by simp)
      intro l hl
      rcases List.mem_append.mp hl with hl' | hl'
      · obtain ⟨row, hrow, rfl⟩ := List.mem_map.mp hl'
        exact not_mem_intercalate '\n' ['\t'] (by decide) row
          (fun f hf => hnl row hrow f hf)
      · simp only [List.mem_singleton] at hl'
        subst hl'
        simp
    simp only [readSnapshot]
    rw [hbom, utf16_roundtrip, hsplit, List.dropLast_concat,
        map_splitOn_tab d hrne htab]
  refine ⟨hmain, by rw [hmain], ?_⟩
  rw [hmain]
  exact h8

/-- Witness for the amended C6 on the spec's scenario row. -/
theorem snapshot_roundtrip_witness :
    ((∀ row ∈ [[String.data "20240101", String.data "1000", String.data "Show A",
        String.data "Desc", String.data "EP1", String.data "2020",
        String.data "PG", String.data "Drama"]], row.length = 8) ∧
     (∀ row ∈ [[String.data "20240101", String.data "1000", String.data "Show A",
        String.data "Desc", String.data "EP1", String.data "2020",
        String.data "PG", String.data "Drama"]], ∀ f ∈ row, '\t' ∉ f) ∧
     (∀ row ∈ [[String.data "20240101", String.data "1000", String.data "Show A",
        String.data "Desc", String.data "EP1", String.data "2020",
        String.data "PG", String.data "Drama"]], ∀ f ∈ row, '\n' ∉ f)) ∧
    (readSnapshot (writeFileUnits
        [[String.data "20240101", String.data "1000", String.data "Show A",
          String.data "Desc", String.data "EP1", String.data "2020",
          String.data "PG", String.data "Drama"]]) =
      [[String.data "20240101", String.data "1000", String.data "Show A",
        String.data "Desc", String.data "EP1", String.data "2020",
        String.data "PG", String.data "Drama"]] ∧
     (readSnapshot (writeFileUnits
        [[String.data "20240101", String.data "1000", String.data "Show A",
          String.data "Desc", String.data "EP1", String.data "2020",
          String.data "PG", String.data "Drama"]])).length =
      [[String.data "20240101", String.data "1000", String.data "Show A",
        String.data "Desc", String.data "EP1", String.data "2020",
        String.data "PG", String.data "Drama"]].length ∧
     (∀ row ∈ readSnapshot (writeFileUnits
        [[String.data "20240101", String.data "1000", String.data "Show A",
          String.data "Desc", String.data "EP1", String.data "2020",
          String.data "PG", String.data "Drama"]]), row.length = 8)) :=
  ⟨⟨by decide, by decide, by decide⟩,
   snapshot_roundtrip
     [[String.data "20240101", String.data "1000", String.data "Show A",
       String.data "Desc", String.data "EP1", String.data "2020",
       String.data "PG", String.data "Drama"]]
     (by decide) (by decide) (by decide)⟩

/-- Witness for the amended C4 on the trivial environment. -/
theorem snapshot_uses_readback_witness :
    (processUrls envTrivial envTrivial.urls).2.2 = none ∧
    ((runPipeline envTrivial [["x"]] none).snapshot =
        some (snapshotOfSheet (sheetGet
          (update_google_sheet_state (processUrls envTrivial envTrivial.urls).1 [["x"]]))) ∧
      update_google_sheet_ret (processUrls envTrivial envTrivial.urls).1 = none ∧
      (∃ (env2 : Env) (s2 : Region),
        (processUrls env2 env2.urls).2.2 = none ∧
        (runPipeline env2 s2 none).snapshot ≠
          some (snapshotChars ((processUrls env2 env2.urls).1.map
            (fun row => (row.map cellOfField).map String.data))))) :=
  ⟨rfl, snapshot_uses_readback envTrivial [["x"]] none rfl⟩

end TVPol
